import Mathlib

/-!
Shallow embedding of ratched's certificate-forgery engine (src/certforgery.c).

Opaque OpenSSL handles (`X509 *`, `EVP_PKEY *`) are modelled as `Nat` ids,
with `NULL` modelled as `none : Option Nat`.  The external primitives
(`openssl_load_stored_key`, `openssl_load_stored_certificate`,
`openssl_create_certificate`, `makedirs`, `strxcat`-based path construction,
`realloc`) are modelled as oracle environments: each call's outcome is a field
of the environment record.  X509 reference counts are tracked in a list
indexed by certificate id; a forged certificate is allocated at the next free
index with reference count 1, mirroring `openssl_create_certificate` returning
a fresh object holding one reference.
-/

/-- Mirrors `struct server_certificate_t` (certforgery.c:41-45): an entry of
the growable `server_certificates` array. -/
structure ServerCertificate where
  hostname : Option String
  ipv4_nbo : Nat
  certificate : Nat
deriving DecidableEq, Repr

/-- Mirrors the static globals of certforgery.c:47-52 plus the X509
reference-count bookkeeping needed to model `X509_up_ref`/`X509_free`. -/
structure ForgeryState where
  root_ca : Option Nat
  root_ca_key : Option Nat
  server_key : Option Nat
  client_key : Option Nat
  server_certificates : List ServerCertificate
  refcnt : List Nat
deriving DecidableEq, Repr

/-- `X509_up_ref` on a tracked certificate id: bump its reference count.
Ids outside the tracked range are left unchanged. -/
def X509_up_ref (refcnt : List Nat) (cert : Nat) : List Nat :=
  refcnt.set cert (refcnt.getD cert 0 + 1)

/-- `X509_free` on a tracked certificate id: drop one reference. -/
def X509_free (refcnt : List Nat) (cert : Nat) : List Nat :=
  refcnt.set cert (refcnt.getD cert 0 - 1)

/-- Mirrors `get_server_certificate` (certforgery.c:54-71): two linear scans,
selected on whether the queried hostname is `NULL`.  The first matching entry
in array order is returned; `List.find?` is exactly that first-match scan. -/
def get_server_certificate (hostname : Option String) (ipv4_nbo : Nat)
    (entries : List ServerCertificate) : Option ServerCertificate :=
  match hostname with
  | none =>
      entries.find? (fun e => e.hostname.isNone && decide (ipv4_nbo = e.ipv4_nbo))
  | some h =>
      entries.find? (fun e =>
        match e.hostname with
        | some eh => decide (h = eh) && decide (ipv4_nbo = e.ipv4_nbo)
        | none => false)

/-- Mirrors the successful branch of `add_server_certificate`
(certforgery.c:73-88): append a zero-initialised entry, fill it in, bump the
count.  `realloc` failure is modelled by the caller's `alloc_ok` oracle. -/
def add_server_certificate (hostname : Option String) (ipv4_nbo : Nat) (cert : Nat)
    (entries : List ServerCertificate) : List ServerCertificate :=
  entries ++ [{ hostname := hostname, ipv4_nbo := ipv4_nbo, certificate := cert }]

/-- Mirrors `enum cryptosystem_t` values used by certforgery.c. -/
inductive Cryptosystem
  | rsa
  | ecc_fp
deriving DecidableEq, Repr

/-- Mirrors `struct keyspec_t` as used here: the `cryptosystem` field is
zero-initialised by the struct literals in `certforgery_init` and only set by
`fill_pgmopts_keyspec`; `none` models the unset zero value. -/
structure KeySpec where
  description : String
  cryptosystem : Option Cryptosystem
  rsa_bitlength : Nat
  ecc_curve_name : Option String
deriving DecidableEq, Repr

/-- Mirrors the configured key type `pgm_options->keyspec.keytype`; `other`
covers any enum value that is neither `KEYTYPE_RSA` nor `KEYTYPE_ECC`. -/
inductive KeyType
  | rsa
  | ecc
  | other (code : Nat)
deriving DecidableEq, Repr

/-- The slice of `pgm_options->keyspec` read by `fill_pgmopts_keyspec`. -/
structure PgmKeySpecOpts where
  keytype : KeyType
  rsa_modulus_length_bits : Nat
  ecc_curvename : String
deriving DecidableEq, Repr

/-- The slice of the global `pgm_options` read by certforgery.c. -/
structure PgmOptions where
  config_dir : String
  keyspec : PgmKeySpecOpts
  mark_forged_certificates : Bool
  crl_uri : Option String
  ocsp_responder_uri : Option String
  dump_certificates : Bool
deriving DecidableEq, Repr

/-- Mirrors `fill_pgmopts_keyspec` (certforgery.c:110-120).  On an unknown
key type the C function only logs (`logmsg(LLVL_FATAL, ...)`) — it is `void`,
mutates nothing and cannot signal failure to its caller. -/
def fill_pgmopts_keyspec (opts : PgmOptions) (keyspec : KeySpec) : KeySpec :=
  match opts.keyspec.keytype with
  | KeyType.rsa =>
      { keyspec with cryptosystem := some Cryptosystem.rsa,
                     rsa_bitlength := opts.keyspec.rsa_modulus_length_bits }
  | KeyType.ecc =>
      { keyspec with cryptosystem := some Cryptosystem.ecc_fp,
                     ecc_curve_name := some opts.keyspec.ecc_curvename }
  | KeyType.other _ => keyspec

/-- The key specification certforgery_init passes to
`openssl_load_stored_key`: a zero-initialised `keyspec_t` with only the
description set, run through `fill_pgmopts_keyspec`. -/
def init_keyspec (opts : PgmOptions) (desc : String) : KeySpec :=
  fill_pgmopts_keyspec opts
    { description := desc, cryptosystem := none, rsa_bitlength := 0,
      ecc_curve_name := none }

/-- Mirrors `struct certificatespec_t` as populated by certforgery.c.  Key
and certificate pointer fields hold `Option Nat` handles (`none` = `NULL`,
the zero-initialised value of fields the struct literal leaves unset). -/
structure CertificateSpec where
  description : String
  subject_pubkey : Option Nat
  issuer_privkey : Option Nat
  issuer_certificate : Option Nat
  common_name : String
  subject_alternative_dns_hostname : Option String
  subject_alternative_ipv4_address : Option Nat
  is_ca_certificate : Bool
  mark_certificate : Bool
  validity_predate_seconds : Nat
  validity_seconds : Nat
  crl_uri : Option String
  ocsp_responder_uri : Option String
deriving DecidableEq, Repr

/-- Modelled from the spec: the dotted-decimal rendering of an IPv4 address.
The C code formats with `snprintf(ipv4, 16, PRI_IPv4, FMT_IPv4(ipv4_nbo))`
(certforgery.c:244); `PRI_IPv4`/`FMT_IPv4` live in ipfwd.h, which is not under
src/.  The spec says "format the address as dotted-decimal text"; octets are
taken low byte first, matching the network-byte-order storage of the
`uint32_t` value. -/
def ipv4Text (a : Nat) : String :=
  toString (a % 256) ++ "." ++ toString (a / 256 % 256) ++ "." ++
    toString (a / 65536 % 256) ++ "." ++ toString (a / 16777216 % 256)

/-- The `certificatespec_t` literal built on the cache-miss path of
`forge_certificate_for_server` (certforgery.c:226-246), including the
hostname-dependent common-name / subject-alternative-DNS branch. -/
def server_certspec (opts : PgmOptions) (hostname : Option String) (ipv4_nbo : Nat)
    (server_key root_ca_key root_ca : Option Nat) : CertificateSpec :=
  { description := "TLS server"
    subject_pubkey := server_key
    issuer_privkey := root_ca_key
    issuer_certificate := root_ca
    common_name := match hostname with
                   | some h => h
                   | none => ipv4Text ipv4_nbo
    subject_alternative_dns_hostname := hostname
    subject_alternative_ipv4_address := some ipv4_nbo
    is_ca_certificate := false
    mark_certificate := opts.mark_forged_certificates
    validity_predate_seconds := 86400
    validity_seconds := 86400 * 365 * 1
    crl_uri := opts.crl_uri
    ocsp_responder_uri := opts.ocsp_responder_uri }

/-- The `certificatespec_t` literal built for the root CA certificate in
`certforgery_init` (certforgery.c:176-185).  Fields the literal leaves unset
are the zero value, i.e. `none`. -/
def root_certspec (opts : PgmOptions) (root_ca_key : Option Nat) : CertificateSpec :=
  { description := "root"
    subject_pubkey := root_ca_key
    issuer_privkey := root_ca_key
    issuer_certificate := none
    common_name := "Evil root certificate"
    subject_alternative_dns_hostname := none
    subject_alternative_ipv4_address := none
    is_ca_certificate := true
    mark_certificate := opts.mark_forged_certificates
    validity_predate_seconds := 86400
    validity_seconds := 86400 * 365 * 5
    crl_uri := none
    ocsp_responder_uri := none }

/-- Oracle outcomes for the external calls made by `certforgery_init`:
`makedirs`, the four `strxcat`-based filename constructions, the three
`openssl_load_stored_key` calls and the one `openssl_load_stored_certificate`
call (`none` = the primitive returned `NULL`). -/
structure InitEnv where
  makedirs_ok : Bool
  root_key_path_ok : Bool
  server_key_path_ok : Bool
  client_key_path_ok : Bool
  root_ca_path_ok : Bool
  load_root_key : Option Nat
  load_server_key : Option Nat
  load_client_key : Option Nat
  load_root_cert : Option Nat
deriving DecidableEq, Repr

/-- Result of `certforgery_init`: the returned `bool`, the global state, the
key specifications actually passed to `openssl_load_stored_key` (in call
order), and the certificate specification passed to
`openssl_load_stored_certificate` (if that call was reached). -/
structure InitResult where
  ok : Bool
  state : ForgeryState
  key_load_attempts : List KeySpec
  root_cert_spec : Option CertificateSpec
deriving DecidableEq, Repr

/-- Mirrors `certforgery_init` (certforgery.c:122-196).  The result of
`makedirs(pgm_options->config_dir)` is discarded by the C code (line 123), so
`env.makedirs_ok` is never consulted.  Each global is assigned the load
result before the `NULL` check, as in the C code.  Note the C code does not
check the result of `openssl_load_stored_certificate` for the root CA
certificate: `root_ca` is assigned and `true` is returned regardless. -/
def certforgery_init (opts : PgmOptions) (env : InitEnv) (s : ForgeryState) :
    InitResult :=
  if !env.root_key_path_ok then
    { ok := false, state := s, key_load_attempts := [], root_cert_spec := none }
  else
    let s1 := { s with root_ca_key := env.load_root_key }
    let a1 := [init_keyspec opts "root"]
    if env.load_root_key.isNone then
      { ok := false, state := s1, key_load_attempts := a1, root_cert_spec := none }
    else if !env.server_key_path_ok then
      { ok := false, state := s1, key_load_attempts := a1, root_cert_spec := none }
    else
      let s2 := { s1 with server_key := env.load_server_key }
      let a2 := a1 ++ [init_keyspec opts "TLS server"]
      if env.load_server_key.isNone then
        { ok := false, state := s2, key_load_attempts := a2, root_cert_spec := none }
      else if !env.client_key_path_ok then
        { ok := false, state := s2, key_load_attempts := a2, root_cert_spec := none }
      else
        let s3 := { s2 with client_key := env.load_client_key }
        let a3 := a2 ++ [init_keyspec opts "TLS client"]
        if env.load_client_key.isNone then
          { ok := false, state := s3, key_load_attempts := a3, root_cert_spec := none }
        else if !env.root_ca_path_ok then
          { ok := false, state := s3, key_load_attempts := a3, root_cert_spec := none }
        else
          { ok := true,
            state := { s3 with root_ca := env.load_root_cert },
            key_load_attempts := a3,
            root_cert_spec := some (root_certspec opts s3.root_ca_key) }

/-- Oracle outcomes for the external calls on the cache-miss path of
`forge_certificate_for_server`: `openssl_create_certificate` success and the
`realloc` inside `add_server_certificate`. -/
structure ForgeEnv where
  create_ok : Bool
  alloc_ok : Bool
deriving DecidableEq, Repr

/-- Result of `forge_certificate_for_server`: the returned `X509 *` handle,
the global state, the certificate specification built on the miss path (if
any), and the id of a certificate newly constructed by
`openssl_create_certificate` (if any). -/
structure ForgeResult where
  result : Option Nat
  state : ForgeryState
  built_spec : Option CertificateSpec
  created : Option Nat
deriving DecidableEq, Repr

/-- Mirrors `forge_certificate_for_server` (certforgery.c:218-265).  On a
cache hit the entry's certificate gets `X509_up_ref` and is returned.  On a
miss, the specification is built; if `openssl_create_certificate` succeeds a
fresh certificate id is allocated with reference count 1; if
`add_server_certificate` then fails the new certificate is `X509_free`d and
`NULL` is returned; otherwise the entry's certificate gets `X509_up_ref` and
is returned. -/
def forge_certificate_for_server (opts : PgmOptions) (env : ForgeEnv)
    (hostname : Option String) (ipv4_nbo : Nat) (s : ForgeryState) : ForgeResult :=
  match get_server_certificate hostname ipv4_nbo s.server_certificates with
  | some entry =>
      { result := some entry.certificate
        state := { s with refcnt := X509_up_ref s.refcnt entry.certificate }
        built_spec := none
        created := none }
  | none =>
      let certspec := server_certspec opts hostname ipv4_nbo
        s.server_key s.root_ca_key s.root_ca
      if env.create_ok then
        let cert := s.refcnt.length
        let s1 := { s with refcnt := s.refcnt ++ [1] }
        if env.alloc_ok then
          let s2 := { s1 with server_certificates :=
            add_server_certificate hostname ipv4_nbo cert s1.server_certificates }
          { result := some cert
            state := { s2 with refcnt := X509_up_ref s2.refcnt cert }
            built_spec := some certspec
            created := some cert }
        else
          { result := none
            state := { s1 with refcnt := X509_free s1.refcnt cert }
            built_spec := some certspec
            created := some cert }
      else
        { result := none, state := s, built_spec := some certspec, created := none }

/-- Mirrors `get_forged_root_certificate` (certforgery.c:198-201). -/
def get_forged_root_certificate (s : ForgeryState) : Option Nat × ForgeryState :=
  (s.root_ca,
   { s with refcnt := match s.root_ca with
                      | some c => X509_up_ref s.refcnt c
                      | none => s.refcnt })

/-- Mirrors `get_forged_root_key` (certforgery.c:203-206); `EVP_PKEY`
reference counts are not tracked by this model. -/
def get_forged_root_key (s : ForgeryState) : Option Nat × ForgeryState :=
  (s.root_ca_key, s)

/-- Mirrors `get_tls_server_key` (certforgery.c:208-211). -/
def get_tls_server_key (s : ForgeryState) : Option Nat × ForgeryState :=
  (s.server_key, s)

/-- Mirrors `get_tls_client_key` (certforgery.c:213-216). -/
def get_tls_client_key (s : ForgeryState) : Option Nat × ForgeryState :=
  (s.client_key, s)

/-- Mirrors `certforgery_deinit` (certforgery.c:267-272): releases the
process's references; the global pointers themselves are not reassigned. -/
def certforgery_deinit (s : ForgeryState) : ForgeryState :=
  { s with refcnt := match s.root_ca with
                     | some c => X509_free s.refcnt c
                     | none => s.refcnt }

/-- A sequence of `forge_certificate_for_server` calls executed sequentially,
each with its own oracle outcomes, threading the global state. -/
def runForges (opts : PgmOptions) (reqs : List (ForgeEnv × Option String × Nat))
    (s : ForgeryState) : ForgeryState :=
  match reqs with
  | [] => s
  | (env, hostname, ipv4) :: rest =>
      runForges opts rest (forge_certificate_for_server opts env hostname ipv4 s).state

/-- The cache-uniqueness invariant: no two entries agree on both the hostname
component (including both-absent) and the address. -/
def cacheUnique (entries : List ServerCertificate) : Prop :=
  entries.Pairwise (fun e1 e2 => ¬(e1.hostname = e2.hostname ∧ e1.ipv4_nbo = e2.ipv4_nbo))

/-! ### Helper lemmas -/

/-- The identity predicate from the spec's wording: hostname component equal
(including both-absent) and address equal. -/
def identityMatches (hostname : Option String) (ipv4_nbo : Nat)
    (e : ServerCertificate) : Bool :=
  decide (e.hostname = hostname) && decide (e.ipv4_nbo = ipv4_nbo)

theorem identityMatches_eq_true (hostname : Option String) (ipv4_nbo : Nat)
    (e : ServerCertificate) :
    identityMatches hostname ipv4_nbo e = true ↔
      (e.hostname = hostname ∧ e.ipv4_nbo = ipv4_nbo) := by
  simp [identityMatches]

theorem decide_comm {α : Type} [DecidableEq α] (a b : α) :
    decide (a = b) = decide (b = a) := by
  by_cases h : a = b
  · subst h; rfl
  · have h2 : ¬ b = a := fun hh => h hh.symm
    simp [h, h2]

theorem findq_congr {α : Type} {p q : α → Bool} (h : ∀ a, p a = q a) :
    ∀ l : List α, l.find? p = l.find? q := by
  intro l
  induction l with
  | nil => rfl
  | cons a t ih =>
    cases hpa : p a with
    | true =>
      have hqa : q a = true := by rw [← h a]; exact hpa
      rw [List.find?_cons_of_pos t hpa, List.find?_cons_of_pos t hqa]
    | false =>
      have hqa : ¬ q a = true := by rw [← h a]; simp [hpa]
      rw [List.find?_cons_of_neg t (by simp [hpa]), List.find?_cons_of_neg t hqa, ih]

/-- The two linear scans of `get_server_certificate` compute exactly the
first entry matching the spec's identity predicate. -/
theorem get_server_certificate_eq_find (hostname : Option String) (ipv4_nbo : Nat)
    (entries : List ServerCertificate) :
    get_server_certificate hostname ipv4_nbo entries =
      entries.find? (identityMatches hostname ipv4_nbo) := by
  cases hostname with
  | none =>
    unfold get_server_certificate
    refine findq_congr (fun e => ?_) entries
    cases he : e.hostname <;>
      simp [identityMatches, he, decide_comm]
  | some h =>
    unfold get_server_certificate
    refine findq_congr (fun e => ?_) entries
    cases he : e.hostname <;>
      simp [identityMatches, he, decide_comm]

theorem get_server_certificate_eq_none (hostname : Option String) (ipv4_nbo : Nat)
    (entries : List ServerCertificate) :
    get_server_certificate hostname ipv4_nbo entries = none ↔
      ∀ e ∈ entries, ¬(e.hostname = hostname ∧ e.ipv4_nbo = ipv4_nbo) := by
  rw [get_server_certificate_eq_find, List.find?_eq_none]
  constructor
  · intro h e he hm
    exact h e he ((identityMatches_eq_true hostname ipv4_nbo e).mpr hm)
  · intro h e he hm
    exact h e he ((identityMatches_eq_true hostname ipv4_nbo e).mp hm)

theorem get_server_certificate_eq_some (hostname : Option String) (ipv4_nbo : Nat)
    (entries : List ServerCertificate) (e : ServerCertificate)
    (h : get_server_certificate hostname ipv4_nbo entries = some e) :
    e ∈ entries ∧ e.hostname = hostname ∧ e.ipv4_nbo = ipv4_nbo := by
  rw [get_server_certificate_eq_find] at h
  exact ⟨List.mem_of_find?_eq_some h,
    (identityMatches_eq_true hostname ipv4_nbo e).mp (List.find?_some h)⟩

/-- After appending a fresh entry for a previously missing identity, lookup
of that identity returns exactly the new entry. -/
theorem get_server_certificate_append_new (hostname : Option String) (ipv4_nbo : Nat)
    (entries : List ServerCertificate) (cert : Nat)
    (h : get_server_certificate hostname ipv4_nbo entries = none) :
    get_server_certificate hostname ipv4_nbo
        (entries ++ [{ hostname := hostname, ipv4_nbo := ipv4_nbo, certificate := cert }]) =
      some { hostname := hostname, ipv4_nbo := ipv4_nbo, certificate := cert } := by
  rw [get_server_certificate_eq_find] at h ⊢
  rw [List.find?_append, h]
  simp [identityMatches]

theorem getD_append_length {α : Type} (l : List α) (a d : α) :
    (l ++ [a]).getD l.length d = a := by
  induction l with
  | nil => rfl
  | cons x t ih => simp

theorem set_append_length {α : Type} (l : List α) (a b : α) :
    (l ++ [a]).set l.length b = l ++ [b] := by
  induction l with
  | nil => rfl
  | cons x t ih => simp [ih]

/-- Releasing the sole reference of a freshly allocated certificate leaves it
with reference count zero. -/
theorem X509_free_fresh (l : List Nat) : X509_free (l ++ [1]) l.length = l ++ [0] := by
  unfold X509_free
  rw [getD_append_length]
  exact set_append_length l 1 0

/-- A single `forge_certificate_for_server` call preserves cache
uniqueness: an entry is only appended after lookup reported a miss. -/
theorem forge_preserves_cacheUnique (opts : PgmOptions) (env : ForgeEnv)
    (hostname : Option String) (ipv4_nbo : Nat) (s : ForgeryState)
    (h : cacheUnique s.server_certificates) :
    cacheUnique
      (forge_certificate_for_server opts env hostname ipv4_nbo s).state.server_certificates := by
  cases hf : get_server_certificate hostname ipv4_nbo s.server_certificates with
  | some e =>
    simpa [forge_certificate_for_server, hf] using h
  | none =>
    by_cases hc : env.create_ok
    · by_cases ha : env.alloc_ok
      · simp only [forge_certificate_for_server, hf, hc, ha, if_true]
        unfold cacheUnique add_server_certificate
        rw [List.pairwise_append]
        refine ⟨h, List.pairwise_singleton _ _, ?_⟩
        intro a hmem b hb
        simp only [List.mem_singleton] at hb
        subst hb
        intro hid
        exact (get_server_certificate_eq_none hostname ipv4_nbo
          s.server_certificates).mp hf a hmem ⟨hid.1, hid.2⟩
      · simpa [forge_certificate_for_server, hf, hc, ha] using h
    · simpa [forge_certificate_for_server, hf, hc] using h

/-- Any sequence of forge calls preserves cache uniqueness. -/
theorem runForges_preserves_cacheUnique (opts : PgmOptions)
    (reqs : List (ForgeEnv × Option String × Nat)) :
    ∀ s : ForgeryState, cacheUnique s.server_certificates →
      cacheUnique (runForges opts reqs s).server_certificates := by
  induction reqs with
  | nil => intro s h; exact h
  | cons r rest ih =>
    intro s h
    obtain ⟨env, hostname, ipv4⟩ := r
    exact ih _ (forge_preserves_cacheUnique opts env hostname ipv4 s h)

/-- C1: After any sequence of `forge_certificate_for_server` calls executed
sequentially from an empty cache, the certificate cache contains at most one
entry per distinct identity (hostname-or-absent, IPv4 address): no two
entries have both equal hostname components (including both-absent) and
equal addresses. -/
theorem forgery_C1_cache_unique (opts : PgmOptions)
    (reqs : List (ForgeEnv × Option String × Nat)) (s0 : ForgeryState)
    (h0 : s0.server_certificates = []) :
    cacheUnique (runForges opts reqs s0).server_certificates := by
  refine runForges_preserves_cacheUnique opts reqs s0 ?_
  rw [cacheUnique, h0]
  exact List.Pairwise.nil

/-- Sample program options used by concrete witnesses. -/
def sampleOpts : PgmOptions :=
  { config_dir := "/tmp/ratched"
    keyspec := { keytype := KeyType.rsa, rsa_modulus_length_bits := 2048,
                 ecc_curvename := "secp256r1" }
    mark_forged_certificates := true
    crl_uri := none
    ocsp_responder_uri := none
    dump_certificates := false }

/-- The zero-initialised global state at process start. -/
def initialState : ForgeryState :=
  { root_ca := none, root_ca_key := none, server_key := none, client_key := none,
    server_certificates := [], refcnt := [] }

/-- A post-initialisation sample state used by concrete witnesses. -/
def sampleState : ForgeryState :=
  { root_ca := some 10, root_ca_key := some 1, server_key := some 2,
    client_key := some 3, server_certificates := [], refcnt := [] }

/-- Witness for C1 at a concrete three-request sequence. -/
theorem forgery_C1_cache_unique_witness :
    initialState.server_certificates = [] ∧
    cacheUnique (runForges sampleOpts
      [(⟨true, true⟩, some "example.com", 167772161),
       (⟨true, true⟩, none, 167772161),
       (⟨true, true⟩, some "example.com", 167772161)] initialState).server_certificates :=
  ⟨rfl, forgery_C1_cache_unique sampleOpts _ initialState rfl⟩

/-- A successful forge call leaves the cache with a first-match entry for
the queried identity holding the returned certificate. -/
theorem forge_success_lookup (opts : PgmOptions) (env : ForgeEnv)
    (hostname : Option String) (ipv4_nbo : Nat) (s : ForgeryState) (c : Nat)
    (h1 : (forge_certificate_for_server opts env hostname ipv4_nbo s).result = some c) :
    ∃ e, get_server_certificate hostname ipv4_nbo
        (forge_certificate_for_server opts env hostname ipv4_nbo s).state.server_certificates
        = some e ∧ e.certificate = c := by
  cases hf : get_server_certificate hostname ipv4_nbo s.server_certificates with
  | some e =>
    simp only [forge_certificate_for_server, hf] at h1 ⊢
    exact ⟨e, rfl, by simpa using h1⟩
  | none =>
    by_cases hc : env.create_ok
    · by_cases ha : env.alloc_ok
      · simp only [forge_certificate_for_server, hf, hc, ha, if_true] at h1 ⊢
        simp only [Option.some.injEq] at h1
        subst h1
        exact ⟨_, by
          simpa [add_server_certificate] using
            get_server_certificate_append_new hostname ipv4_nbo
              s.server_certificates s.refcnt.length hf, rfl⟩
      · simp [forge_certificate_for_server, hf, hc, ha] at h1
    · simp [forge_certificate_for_server, hf, hc] at h1

/-- C2: a second forge call with the identical (hostname, address) pair,
after a first successful call, returns the same underlying certificate,
constructs no new certificate, builds no specification, and leaves the
cache unchanged. -/
theorem forgery_C2_idempotent_reuse (opts : PgmOptions) (env env2 : ForgeEnv)
    (hostname : Option String) (ipv4_nbo : Nat) (s : ForgeryState) (c : Nat)
    (h1 : (forge_certificate_for_server opts env hostname ipv4_nbo s).result = some c) :
    (forge_certificate_for_server opts env2 hostname ipv4_nbo
        (forge_certificate_for_server opts env hostname ipv4_nbo s).state).result = some c ∧
    (forge_certificate_for_server opts env2 hostname ipv4_nbo
        (forge_certificate_for_server opts env hostname ipv4_nbo s).state).created = none ∧
    (forge_certificate_for_server opts env2 hostname ipv4_nbo
        (forge_certificate_for_server opts env hostname ipv4_nbo s).state).built_spec = none ∧
    (forge_certificate_for_server opts env2 hostname ipv4_nbo
        (forge_certificate_for_server opts env hostname ipv4_nbo s).state).state.server_certificates
      = (forge_certificate_for_server opts env hostname ipv4_nbo s).state.server_certificates := by
  obtain ⟨e, hget, hec⟩ := forge_success_lookup opts env hostname ipv4_nbo s c h1
  generalize hs1 : (forge_certificate_for_server opts env hostname ipv4_nbo s).state = s1
    at hget ⊢
  refine ⟨?_, ?_, ?_, ?_⟩ <;> simp [forge_certificate_for_server, hget, hec]

/-- Witness for C2: first call on the sample state returns certificate id 0;
the second call (even with all oracles failing) returns the same id. -/
theorem forgery_C2_idempotent_reuse_witness :
    (forge_certificate_for_server sampleOpts ⟨false, false⟩ (some "example.com") 5
        (forge_certificate_for_server sampleOpts ⟨true, true⟩ (some "example.com") 5
          sampleState).state).result = some 0 :=
  (forgery_C2_idempotent_reuse sampleOpts ⟨true, true⟩ ⟨false, false⟩
    (some "example.com") 5 sampleState 0 rfl).1

/-- Init environment in which every external call succeeds except that
`openssl_load_stored_certificate` returns `NULL` for root.crt. -/
def envRootCertLoadFails : InitEnv :=
  { makedirs_ok := true, root_key_path_ok := true, server_key_path_ok := true,
    client_key_path_ok := true, root_ca_path_ok := true,
    load_root_key := some 1, load_server_key := some 2, load_client_key := some 3,
    load_root_cert := none }

/-- C3 (evaluating the code at the failing input): when the external
load-stored-certificate primitive fails for the root CA certificate,
`certforgery_init` nevertheless returns success, leaving `root_ca` NULL —
the C code assigns `root_ca = openssl_load_stored_certificate(...)`
(certforgery.c:188) without ever checking the result, unlike the three
checked key loads. -/
theorem forgery_C3_root_cert_failure_ignored :
    (certforgery_init sampleOpts envRootCertLoadFails initialState).ok = true ∧
    (certforgery_init sampleOpts envRootCertLoadFails initialState).state.root_ca = none :=
  ⟨rfl, rfl⟩

/-- Init environment in which directory creation fails but every other
external call succeeds. -/
def envMakedirsFails : InitEnv :=
  { makedirs_ok := false, root_key_path_ok := true, server_key_path_ok := true,
    client_key_path_ok := true, root_ca_path_ok := true,
    load_root_key := some 1, load_server_key := some 2, load_client_key := some 3,
    load_root_cert := some 4 }

/-- Counterexample to C4: with directory creation failing but all other
primitives succeeding, `certforgery_init` reports success and all three keys
are loaded. -/
theorem forgery_C4_counterexample :
    (certforgery_init sampleOpts envMakedirsFails initialState).ok = true ∧
    (certforgery_init sampleOpts envMakedirsFails initialState).state.root_ca_key = some 1 ∧
    (certforgery_init sampleOpts envMakedirsFails initialState).state.server_key = some 2 ∧
    (certforgery_init sampleOpts envMakedirsFails initialState).state.client_key = some 3 :=
  ⟨rfl, rfl, rfl, rfl⟩

/-- C4 (amended): `certforgery_init` discards the result of `makedirs`
(certforgery.c:123); its entire outcome is independent of whether the
configuration directory could be created, so on directory-creation failure it
still attempts all three key loads and fails only if a path cannot be
constructed or a key load fails. -/
theorem forgery_C4_makedirs_ignored (opts : PgmOptions) (env : InitEnv)
    (s : ForgeryState) :
    certforgery_init opts env s =
      certforgery_init opts { env with makedirs_ok := true } s := by
  cases env
  rfl

/-- C5: cache lookup returns the first entry in insertion order whose
hostname component equals the query's (both absent, or both present and
textually equal) and whose address equals the query's; it returns `none`
exactly when no such entry exists; and any returned entry has exactly the
queried identity, so an absent-hostname query never matches a
present-hostname entry for the same address, and vice versa. -/
theorem forgery_C5_lookup (hostname : Option String) (ipv4_nbo : Nat)
    (entries : List ServerCertificate) :
    get_server_certificate hostname ipv4_nbo entries =
      entries.find? (identityMatches hostname ipv4_nbo) ∧
    (∀ e, get_server_certificate hostname ipv4_nbo entries = some e →
      e ∈ entries ∧ e.hostname = hostname ∧ e.ipv4_nbo = ipv4_nbo) ∧
    (get_server_certificate hostname ipv4_nbo entries = none ↔
      ∀ e ∈ entries, ¬(e.hostname = hostname ∧ e.ipv4_nbo = ipv4_nbo)) :=
  ⟨get_server_certificate_eq_find hostname ipv4_nbo entries,
   fun e h => get_server_certificate_eq_some hostname ipv4_nbo entries e h,
   get_server_certificate_eq_none hostname ipv4_nbo entries⟩

/-- A two-entry cache (address-only entry and hostname entry, same address)
used to witness the lookup partition. -/
def sampleEntries : List ServerCertificate :=
  [{ hostname := none, ipv4_nbo := 7, certificate := 0 },
   { hostname := some "a.com", ipv4_nbo := 7, certificate := 1 }]

/-- Witness for C5 at a concrete cache: the hostname query skips the
absent-hostname entry with the same address. -/
theorem forgery_C5_lookup_witness :
    get_server_certificate (some "a.com") 7 sampleEntries =
      sampleEntries.find? (identityMatches (some "a.com") 7) :=
  (forgery_C5_lookup (some "a.com") 7 sampleEntries).1

/-- C6: on a cache miss the certificate specification built by
`forge_certificate_for_server` is `server_certspec`; when the hostname is
present both the subject-alternative DNS hostname and the common name equal
the hostname; when it is absent the common name is the dotted-decimal text
of the address and no DNS subject-alternative name is set; in both cases the
subject-alternative IPv4 address equals the given address. -/
theorem forgery_C6_subject_naming (opts : PgmOptions) (env : ForgeEnv)
    (hostname : Option String) (ipv4_nbo : Nat) (s : ForgeryState)
    (hmiss : get_server_certificate hostname ipv4_nbo s.server_certificates = none) :
    (forge_certificate_for_server opts env hostname ipv4_nbo s).built_spec =
      some (server_certspec opts hostname ipv4_nbo s.server_key s.root_ca_key s.root_ca) ∧
    (∀ h : String, hostname = some h →
      (server_certspec opts hostname ipv4_nbo s.server_key s.root_ca_key
        s.root_ca).subject_alternative_dns_hostname = some h ∧
      (server_certspec opts hostname ipv4_nbo s.server_key s.root_ca_key
        s.root_ca).common_name = h) ∧
    (hostname = none →
      (server_certspec opts hostname ipv4_nbo s.server_key s.root_ca_key
        s.root_ca).common_name = ipv4Text ipv4_nbo ∧
      (server_certspec opts hostname ipv4_nbo s.server_key s.root_ca_key
        s.root_ca).subject_alternative_dns_hostname = none) ∧
    (server_certspec opts hostname ipv4_nbo s.server_key s.root_ca_key
      s.root_ca).subject_alternative_ipv4_address = some ipv4_nbo := by
  refine ⟨?_, ?_, ?_, rfl⟩
  · by_cases hc : env.create_ok
    · by_cases ha : env.alloc_ok <;> simp [forge_certificate_for_server, hmiss, hc, ha]
    · simp [forge_certificate_for_server, hmiss, hc]
  · intro h hh
    subst hh
    exact ⟨rfl, rfl⟩
  · intro hh
    subst hh
    exact ⟨rfl, rfl⟩

/-- Witness for C6 at a present hostname on the sample state. -/
theorem forgery_C6_subject_naming_witness :
    (forge_certificate_for_server sampleOpts ⟨true, true⟩ (some "host.example")
        84017344 sampleState).built_spec =
      some (server_certspec sampleOpts (some "host.example") 84017344
        sampleState.server_key sampleState.root_ca_key sampleState.root_ca) :=
  (forgery_C6_subject_naming sampleOpts ⟨true, true⟩ (some "host.example")
    84017344 sampleState rfl).1

/-- C7: on the construct-then-insert path, if construction fails the state is
untouched and no certificate is returned; if construction succeeds and cache
insertion fails, the new certificate's only reference is released (its count
ends at zero) , the cache is unchanged and no certificate is returned; and a
returned certificate is always recorded in some cache entry. -/
theorem forgery_C7_failure_paths (opts : PgmOptions) (hostname : Option String)
    (ipv4_nbo : Nat) (s : ForgeryState)
    (hmiss : get_server_certificate hostname ipv4_nbo s.server_certificates = none) :
    (∀ b, (forge_certificate_for_server opts ⟨false, b⟩ hostname ipv4_nbo s).result = none ∧
      (forge_certificate_for_server opts ⟨false, b⟩ hostname ipv4_nbo s).state = s) ∧
    ((forge_certificate_for_server opts ⟨true, false⟩ hostname ipv4_nbo s).result = none ∧
     (forge_certificate_for_server opts ⟨true, false⟩ hostname ipv4_nbo
        s).state.server_certificates = s.server_certificates ∧
     (forge_certificate_for_server opts ⟨true, false⟩ hostname ipv4_nbo s).state.refcnt
       = s.refcnt ++ [0]) ∧
    (∀ (s2 : ForgeryState) (env : ForgeEnv) (c : Nat),
      (forge_certificate_for_server opts env hostname ipv4_nbo s2).result = some c →
      ∃ e ∈ (forge_certificate_for_server opts env hostname ipv4_nbo
          s2).state.server_certificates, e.certificate = c) := by
  refine ⟨?_, ?_, ?_⟩
  · intro b
    constructor <;> simp [forge_certificate_for_server, hmiss]
  · refine ⟨?_, ?_, ?_⟩ <;> simp [forge_certificate_for_server, hmiss, X509_free_fresh]
  · intro s2 env c h
    obtain ⟨e, hget, hec⟩ := forge_success_lookup opts env hostname ipv4_nbo s2 c h
    exact ⟨e, (get_server_certificate_eq_some _ _ _ e hget).1, hec⟩

/-- Witness for C7: construction succeeding but insertion failing on the
sample state returns nothing and frees the fresh certificate. -/
theorem forgery_C7_failure_paths_witness :
    (forge_certificate_for_server sampleOpts ⟨true, false⟩ none 9 sampleState).result = none ∧
    (forge_certificate_for_server sampleOpts ⟨true, false⟩ none 9 sampleState).state.refcnt
      = sampleState.refcnt ++ [0] :=
  ⟨(forgery_C7_failure_paths sampleOpts none 9 sampleState rfl).2.1.1,
   (forgery_C7_failure_paths sampleOpts none 9 sampleState rfl).2.1.2.2⟩

/-- A single forge call leaves the four long-lived handle globals unchanged. -/
theorem forge_preserves_keys (opts : PgmOptions) (env : ForgeEnv)
    (hostname : Option String) (ipv4_nbo : Nat) (s : ForgeryState) :
    (forge_certificate_for_server opts env hostname ipv4_nbo s).state.root_ca = s.root_ca ∧
    (forge_certificate_for_server opts env hostname ipv4_nbo s).state.root_ca_key = s.root_ca_key ∧
    (forge_certificate_for_server opts env hostname ipv4_nbo s).state.server_key = s.server_key ∧
    (forge_certificate_for_server opts env hostname ipv4_nbo s).state.client_key = s.client_key := by
  cases hf : get_server_certificate hostname ipv4_nbo s.server_certificates <;>
    by_cases hc : env.create_ok <;> by_cases ha : env.alloc_ok <;>
      refine ⟨?_, ?_, ?_, ?_⟩ <;> simp [forge_certificate_for_server, hf, hc, ha]

/-- Any sequence of forge calls leaves the four handle globals unchanged. -/
theorem runForges_preserves_keys (opts : PgmOptions)
    (reqs : List (ForgeEnv × Option String × Nat)) :
    ∀ s : ForgeryState,
      (runForges opts reqs s).root_ca = s.root_ca ∧
      (runForges opts reqs s).root_ca_key = s.root_ca_key ∧
      (runForges opts reqs s).server_key = s.server_key ∧
      (runForges opts reqs s).client_key = s.client_key := by
  induction reqs with
  | nil => intro s; exact ⟨rfl, rfl, rfl, rfl⟩
  | cons r rest ih =>
    intro s
    obtain ⟨env, hostname, ipv4⟩ := r
    have h1 := forge_preserves_keys opts env hostname ipv4 s
    have h2 := ih (forge_certificate_for_server opts env hostname ipv4 s).state
    exact ⟨h2.1.trans h1.1, h2.2.1.trans h1.2.1, h2.2.2.1.trans h1.2.2.1,
      h2.2.2.2.trans h1.2.2.2⟩

/-- C8: the four handles are never reassigned by any operation after
initialization (forge sequences, the four accessors, deinit), and every
specification built for a forged leaf uses the root CA key as issuer private
key, the root CA certificate as issuer certificate, and the shared server
key as subject public key. -/
theorem forgery_C8_root_of_trust (opts : PgmOptions) (s : ForgeryState) :
    (∀ reqs : List (ForgeEnv × Option String × Nat),
      (runForges opts reqs s).root_ca = s.root_ca ∧
      (runForges opts reqs s).root_ca_key = s.root_ca_key ∧
      (runForges opts reqs s).server_key = s.server_key ∧
      (runForges opts reqs s).client_key = s.client_key) ∧
    (∀ (env : ForgeEnv) (hostname : Option String) (ipv4_nbo : Nat)
        (sp : CertificateSpec),
      (forge_certificate_for_server opts env hostname ipv4_nbo s).built_spec = some sp →
      sp.subject_pubkey = s.server_key ∧ sp.issuer_privkey = s.root_ca_key ∧
      sp.issuer_certificate = s.root_ca) ∧
    (get_forged_root_certificate s).2.root_ca = s.root_ca ∧
    (get_forged_root_key s).2 = s ∧
    (get_tls_server_key s).2 = s ∧
    (get_tls_client_key s).2 = s ∧
    (certforgery_deinit s).root_ca = s.root_ca ∧
    (certforgery_deinit s).root_ca_key = s.root_ca_key ∧
    (certforgery_deinit s).server_key = s.server_key ∧
    (certforgery_deinit s).client_key = s.client_key := by
  refine ⟨fun reqs => runForges_preserves_keys opts reqs s, ?_, rfl, rfl, rfl, rfl,
    rfl, rfl, rfl, rfl⟩
  intro env hostname ipv4 sp hsp
  cases hf : get_server_certificate hostname ipv4 s.server_certificates with
  | some e => simp [forge_certificate_for_server, hf] at hsp
  | none =>
    by_cases hc : env.create_ok
    · by_cases ha : env.alloc_ok
      · simp [forge_certificate_for_server, hf, hc, ha] at hsp
        subst hsp
        exact ⟨rfl, rfl, rfl⟩
      · simp [forge_certificate_for_server, hf, hc, ha] at hsp
        subst hsp
        exact ⟨rfl, rfl, rfl⟩
    · simp [forge_certificate_for_server, hf, hc] at hsp
      subst hsp
      exact ⟨rfl, rfl, rfl⟩

/-- Witness for C8 after one concrete forge call. -/
theorem forgery_C8_root_of_trust_witness :
    (runForges sampleOpts [(⟨true, true⟩, none, 3)] sampleState).root_ca_key
      = sampleState.root_ca_key :=
  ((forgery_C8_root_of_trust sampleOpts sampleState).1 [(⟨true, true⟩, none, 3)]).2.1

/-- C9: the validity fields are exact — every forged leaf specification
predates by 86400 seconds with a duration of 86400*365 seconds, and the root
CA specification predates by 86400 seconds with a duration of 86400*365*5
seconds. -/
theorem forgery_C9_validity (opts : PgmOptions) (hostname : Option String)
    (ipv4_nbo : Nat) (sk rk rc : Option Nat) :
    (server_certspec opts hostname ipv4_nbo sk rk rc).validity_predate_seconds = 86400 ∧
    (server_certspec opts hostname ipv4_nbo sk rk rc).validity_seconds = 86400 * 365 ∧
    (root_certspec opts rk).validity_predate_seconds = 86400 ∧
    (root_certspec opts rk).validity_seconds = 86400 * 365 * 5 :=
  ⟨rfl, rfl, rfl, rfl⟩

/-- C10: with a key type that is neither RSA nor elliptic-curve,
`fill_pgmopts_keyspec` changes nothing (the cryptosystem field stays unset),
the success of `certforgery_init` is entirely independent of the configured
options, and with all external primitives succeeding initialization still
attempts all three key loads — each with an unset cryptosystem — and
reports success. -/
theorem forgery_C10_unknown_keytype (opts : PgmOptions) (code : Nat)
    (hk : opts.keyspec.keytype = KeyType.other code) :
    (∀ ks : KeySpec, fill_pgmopts_keyspec opts ks = ks) ∧
    (∀ (opts2 : PgmOptions) (env : InitEnv) (s : ForgeryState),
      (certforgery_init opts env s).ok = (certforgery_init opts2 env s).ok) ∧
    (∀ (env : InitEnv) (s : ForgeryState) (k1 k2 k3 : Nat),
      env.root_key_path_ok = true → env.server_key_path_ok = true →
      env.client_key_path_ok = true → env.root_ca_path_ok = true →
      env.load_root_key = some k1 → env.load_server_key = some k2 →
      env.load_client_key = some k3 →
      (certforgery_init opts env s).ok = true ∧
      (certforgery_init opts env s).key_load_attempts =
        [{ description := "root", cryptosystem := none, rsa_bitlength := 0,
           ecc_curve_name := none },
         { description := "TLS server", cryptosystem := none, rsa_bitlength := 0,
           ecc_curve_name := none },
         { description := "TLS client", cryptosystem := none, rsa_bitlength := 0,
           ecc_curve_name := none }]) := by
  refine ⟨?_, ?_, ?_⟩
  · intro ks
    simp [fill_pgmopts_keyspec, hk]
  · intro opts2 env s
    obtain ⟨mk, rp, sp2, cp, rcp, lrk, lsk, lck, lrc⟩ := env
    cases rp <;> cases sp2 <;> cases cp <;> cases rcp <;>
      cases lrk <;> cases lsk <;> cases lck <;> rfl
  · intro env s k1 k2 k3 h1 h2 h3 h4 h5 h6 h7
    constructor
    · simp [certforgery_init, h1, h2, h3, h4, h5, h6, h7]
    · simp [certforgery_init, init_keyspec, fill_pgmopts_keyspec, hk,
        h1, h2, h3, h4, h5, h6, h7]

/-- Options configured with an unknown key type, for the C10 witness. -/
def unknownKeyOpts : PgmOptions :=
  { sampleOpts with
      keyspec := { keytype := KeyType.other 7, rsa_modulus_length_bits := 2048,
                   ecc_curvename := "secp256r1" } }

/-- Init environment in which every external call succeeds. -/
def envAllOk : InitEnv :=
  { makedirs_ok := true, root_key_path_ok := true, server_key_path_ok := true,
    client_key_path_ok := true, root_ca_path_ok := true,
    load_root_key := some 1, load_server_key := some 2, load_client_key := some 3,
    load_root_cert := some 4 }

/-- Witness for C10: initialization succeeds despite the unknown key type. -/
theorem forgery_C10_unknown_keytype_witness :
    (certforgery_init unknownKeyOpts envAllOk initialState).ok = true :=
  ((forgery_C10_unknown_keytype unknownKeyOpts 7 rfl).2.2 envAllOk initialState
    1 2 3 rfl rfl rfl rfl rfl rfl rfl).1
